import Mathlib

/-!
Shallow embedding of src/W2W/single_page_app.py (the Weather 2 Wear
single-page app) and proofs about the claims of its specification.

Modelling conventions:
- Python floats are modelled as rationals (the inputs of interest are
  exact decimals); the float nan, which numpy.mean returns on an empty
  list, is modelled as the value `none` of `Option ℚ`.
- A Python function that can raise is modelled as returning
  `Except PyErr _`; `Except.error` is an exception escaping the function.
- Python dicts are modelled as association lists whose lookup takes the
  first binding; subscripting a missing key raises KeyError.
- Name resolution follows the module namespace of the source file: at
  line 162 the name Counter denotes prometheus_client.Counter, because
  the import on line 9 shadows the collections.Counter import of line 7.
-/

namespace W2W

/-- Decidable equality of `Except` values, used to evaluate the embedded
functions at concrete inputs inside proofs. -/
instance {ε α : Type} [DecidableEq ε] [DecidableEq α] : DecidableEq (Except ε α)
  | Except.error a, Except.error b =>
      if h : a = b then isTrue (by rw [h])
      else isFalse (fun hh => h (Except.error.inj hh))
  | Except.error _, Except.ok _ => isFalse (fun hh => Except.noConfusion hh)
  | Except.ok _, Except.error _ => isFalse (fun hh => Except.noConfusion hh)
  | Except.ok a, Except.ok b =>
      if h : a = b then isTrue (by rw [h])
      else isFalse (fun hh => h (Except.ok.inj hh))

/-- Python-level exceptions and errors that the embedded code can raise.
The constructor `emptyInput` models the EmptyInputError of the spec
taxonomy; the code itself defines no such class, the constructor exists
only so that claims that mention it can be stated. -/
inductive PyErr where
  | typeError (msg : String)
  | keyError (key : String)
  | attributeError (msg : String)
  | unboundLocalError (name : String)
  | indexError
  | emptyInput
  deriving DecidableEq, Repr

/-- One forecast entry of weather_data["list"]: the fields that
process_weather_data (lines 153-157) reads from it. -/
structure Forecast where
  temp : ℚ
  humidity : ℚ
  windSpeed : ℚ
  condition : String
  deriving DecidableEq, Repr

/-- The weather_data dict as used by process_weather_data: its "list"
entry. -/
structure WeatherData where
  list : List Forecast
  deriving DecidableEq, Repr

/-- numpy.mean (lines 159-161): the sum divided by the length. On an
empty list numpy returns the float nan (with a runtime warning) rather
than raising; nan is modelled as `none`. -/
def npMean (xs : List ℚ) : Option ℚ :=
  if xs.isEmpty then none else some (xs.sum / (xs.length : ℚ))

/-- The call Counter(weather_main_conditions) at line 162. In the module
namespace, Counter is prometheus_client.Counter: the import at line 9
shadows the collections.Counter imported at line 7. The prometheus
constructor signature is Counter(name, documentation, ...); called with
the conditions list as its only positional argument it raises TypeError,
before any most_common attribute could be consulted. -/
def shadowedCounterCall (conditions : List String) : Except PyErr String :=
  Except.error (PyErr.typeError
    "Counter.__init__ missing 1 required positional argument: documentation")

/-- process_weather_data (lines 136-164), with name resolution as in the
source: builds the four per-field lists, takes the three numpy means,
then hits the shadowed Counter call of line 162, which raises on every
input, so the return at line 164 is never reached. -/
def process_weather_data (weather_data : WeatherData) :
    Except PyErr (Option ℚ × Option ℚ × Option ℚ × String) :=
  let temps := weather_data.list.map Forecast.temp
  let humidities := weather_data.list.map Forecast.humidity
  let wind_speeds := weather_data.list.map Forecast.windSpeed
  let weather_main_conditions := weather_data.list.map Forecast.condition
  let avg_temp := npMean temps
  let avg_humidity := npMean humidities
  let avg_wind_speed := npMean wind_speeds
  match shadowedCounterCall weather_main_conditions with
  | Except.error e => Except.error e
  | Except.ok most_common_weather =>
      Except.ok (avg_temp, avg_humidity, avg_wind_speed, most_common_weather)

/-- The distinct elements of a list in order of first occurrence: the
key order of a Python 3.7+ dict, hence of a collections.Counter, built
from the list. -/
def firstSeen (l : List String) : List String :=
  l.foldl (fun acc x => if acc.contains x then acc else acc ++ [x]) []

/-- collections.Counter(l).most_common(1)[0][0]: most_common sorts the
counter entries by count, descending, with a stable sort, so ties keep
first-insertion order; taking [0][0] of the singleton result yields the
first-seen label of maximal count. On an empty list most_common(1) is []
and the [0] subscript raises IndexError. -/
def counterMostCommon1 (l : List String) : Except PyErr String :=
  match firstSeen l with
  | [] => Except.error PyErr.indexError
  | x :: rest =>
      Except.ok (rest.foldl (fun best y => if l.count best < l.count y then y else best) x)

/-- process_weather_data as the surrounding code and the docstring
intend it: identical to `process_weather_data` except that Counter at
line 162 denotes collections.Counter — the binding that line 7
established before line 9 shadowed it. Kept for comparison, to show
which claims would hold were the shadowing slip absent. -/
def process_weather_data_intended (weather_data : WeatherData) :
    Except PyErr (Option ℚ × Option ℚ × Option ℚ × String) :=
  let temps := weather_data.list.map Forecast.temp
  let humidities := weather_data.list.map Forecast.humidity
  let wind_speeds := weather_data.list.map Forecast.windSpeed
  let weather_main_conditions := weather_data.list.map Forecast.condition
  let avg_temp := npMean temps
  let avg_humidity := npMean humidities
  let avg_wind_speed := npMean wind_speeds
  match counterMostCommon1 weather_main_conditions with
  | Except.error e => Except.error e
  | Except.ok most_common_weather =>
      Except.ok (avg_temp, avg_humidity, avg_wind_speed, most_common_weather)

/-- The part of a requests.Response that the code reads: status_code and
text; the json body is abstracted away since the claims below never
depend on it. -/
structure Response where
  status_code : Nat
  text : String
  deriving DecidableEq, Repr

/-- The exceptions of the requests library that the except clause at
line 78 catches (requests.RequestException): transport-level failures
(timeout, DNS failure, connection error) and the HTTPError that
raise_for_status raises. -/
inductive ReqException where
  | transport (msg : String)
  | httpError (status : Nat)
  deriving DecidableEq, Repr

/-- The outcome of one network exchange as seen by requests.get or
requests.post: either the transport raises, or a Response with some
status code is delivered. -/
inductive NetOutcome where
  | transportError (msg : String)
  | response (r : Response)
  deriving DecidableEq, Repr

/-- Whether a status code is in the 2xx success range. -/
def is2xx (status : Nat) : Bool :=
  200 ≤ status && status < 300

/-- Response.raise_for_status (line 77): the requests library raises
HTTPError exactly for status codes in the range 400 to 599; 1xx, 2xx and
3xx responses pass through silently. -/
def raise_for_status (r : Response) : Except ReqException Unit :=
  if 400 ≤ r.status_code && r.status_code < 600 then
    Except.error (ReqException.httpError r.status_code)
  else Except.ok ()

/-- The string interpolated into the st.error message at line 79 for a
caught requests exception. -/
def reqExceptionStr : ReqException → String
  | ReqException.transport msg => msg
  | ReqException.httpError status => toString status ++ " Error"

/-- send_request (lines 48-81). The result pairs the list of st.error
messages displayed with the returned value; `Except.error` models an
exception escaping the function, which happens exactly when the local
variable response was never assigned: for a method other than "GET" or
"POST" neither branch of the if/elif runs, so line 77 raises
UnboundLocalError, which the except clause (requests.RequestException
only) does not catch and no network call is made. For "GET" or "POST"
the one exchange either raises in the try (caught: one message, response
set to None) or delivers a response that raise_for_status checks. -/
def send_request (url : String) (method : String) (json_data : Option String)
    (outcome : NetOutcome) : Except PyErr (List String × Option Response) :=
  if method == "GET" || method == "POST" then
    match outcome with
    | NetOutcome.transportError msg =>
        Except.ok (["HTTP request failed: " ++ reqExceptionStr (ReqException.transport msg)], none)
    | NetOutcome.response r =>
        match raise_for_status r with
        | Except.error e =>
            Except.ok (["HTTP request failed: " ++ reqExceptionStr e], none)
        | Except.ok _ => Except.ok ([], some r)
  else
    Except.error (PyErr.unboundLocalError "response")

/-- Attribute access resp.status_code on an Optional response: Python
raises AttributeError when the value is None (as at lines 358 and 367,
where the response can be the None that send_request returned). -/
def optStatusCode : Option Response → Except PyErr Nat
  | some r => Except.ok r.status_code
  | none => Except.error (PyErr.attributeError "NoneType object has no attribute status_code")

/-- Attribute access resp.text on an Optional response (lines 359 and
368). -/
def optText : Option Response → Except PyErr String
  | some r => Except.ok r.text
  | none => Except.error (PyErr.attributeError "NoneType object has no attribute text")

/-- Lines 366-368: the else branch taken when the weather fetch did not
yield a 200 response — in particular when send_request returned None.
The f-string reads weather_response.status_code first, then line 368
reads weather_response.text; the result is the list of messages
displayed, and Except.error an exception escaping the branch (this
branch sits outside the try of line 324, so nothing catches it). -/
def weatherFailureBranch (weather_response : Option Response) :
    Except PyErr (List String) :=
  match optStatusCode weather_response with
  | Except.error e => Except.error e
  | Except.ok sc =>
      match optText weather_response with
      | Except.error e => Except.error e
      | Except.ok t =>
          Except.ok ["Failed to fetch weather data. Status code: " ++ toString sc,
                     "Response content: " ++ t]

/-- Lines 357-359: the else branch taken when the recommendation fetch
did not yield a 200 response — in particular when send_request returned
None. The surrounding try (line 324) catches only ValueError, so the
AttributeError raised on None escapes. -/
def lambdaFailureBranch (lambda_response : Option Response) :
    Except PyErr (List String) :=
  match optStatusCode lambda_response with
  | Except.error e => Except.error e
  | Except.ok sc =>
      match optText lambda_response with
      | Except.error e => Except.error e
      | Except.ok t =>
          Except.ok ["Failed to send data. Status code: " ++ toString sc,
                     "Response content: " ++ t]

/-- The state of the module top level: a program counter over the
top-level statements and the value of the prometheus counter c. -/
structure TopState where
  pc : Nat
  my_app_requests : Nat
  deriving DecidableEq, Repr

/-- handle_request (lines 15-18): increments the counter c and sleeps
for a random number of seconds. -/
def handle_request (s : TopState) : TopState :=
  { s with my_app_requests := s.my_app_requests + 1 }

/-- Program counter layout of the module top level: 0 is the assignment
c = Counter(...) at line 13, 1 is start_http_server(8000) at line 21,
2 is the while True loop of lines 23-24, and `pcFunctionDefs` = 3 is the
first statement after the loop — the def statements of lines 27 onward
and, past them, the main guard at lines 373-375 that would call
single_page_app. -/
def pcFunctionDefs : Nat := 3

/-- One step of top-level execution: statements before the loop advance
the program counter; the loop at pc 2 runs handle_request and stays at
pc 2, since its condition is the constant True and its body neither
breaks nor raises. -/
def topLevelStep (s : TopState) : TopState :=
  if s.pc = 2 then { handle_request s with pc := 2 }
  else { s with pc := s.pc + 1 }

/-- Top-level execution of the module after n steps, from the initial
state at line 13. -/
def execTopLevel : Nat → TopState
  | 0 => { pc := 0, my_app_requests := 0 }
  | n + 1 => topLevelStep (execTopLevel n)

/-- The five clothing-slot keys that format_outfit_suggestions
subscripts, in the evaluation order of its f-string (lines 125-129). -/
def requiredKeys : List String :=
  ["Top", "Bottom", "Footwear", "Outerwear", "Accessories"]

/-- Python dict subscript suggestions[key]: dicts are modelled as
association lists whose lookup takes the first binding; subscripting a
missing key raises KeyError. -/
def dictGet (suggestions : List (String × String)) (key : String) :
    Except PyErr String :=
  match suggestions.lookup key with
  | some v => Except.ok v
  | none => Except.error (PyErr.keyError key)

/-- format_outfit_suggestions (lines 108-131): one f-string whose five
subscripts evaluate in source order; the first missing key raises
KeyError before any markup is produced, so the function either returns
the complete markup or raises with no partial output. The string is the
literal of lines 123-131. -/
def format_outfit_suggestions (suggestions : List (String × String)) :
    Except PyErr String :=
  match dictGet suggestions "Top" with
  | Except.error e => Except.error e
  | Except.ok top =>
  match dictGet suggestions "Bottom" with
  | Except.error e => Except.error e
  | Except.ok bottom =>
  match dictGet suggestions "Footwear" with
  | Except.error e => Except.error e
  | Except.ok footwear =>
  match dictGet suggestions "Outerwear" with
  | Except.error e => Except.error e
  | Except.ok outerwear =>
  match dictGet suggestions "Accessories" with
  | Except.error e => Except.error e
  | Except.ok accessories =>
  Except.ok ("\n    <div class=\"response-info\">\n        <strong>Top:</strong> "
    ++ top ++ "<br>\n        <strong>Bottom:</strong> "
    ++ bottom ++ "<br>\n        <strong>Footwear:</strong> "
    ++ footwear ++ "<br>\n        <strong>Outerwear:</strong> "
    ++ outerwear ++ "<br>\n        <strong>Accessories:</strong> "
    ++ accessories ++ "<br>\n    </div>\n    ")

/-- Whether all five clothing-slot keys are present in a suggestions
dict. -/
def hasAllKeys (suggestions : List (String × String)) : Bool :=
  requiredKeys.all (fun k => (suggestions.lookup k).isSome)

/-- The first of the five required keys, in f-string evaluation order,
that is absent from the suggestions dict. -/
def firstMissingKey (suggestions : List (String × String)) : Option String :=
  requiredKeys.find? (fun k => (suggestions.lookup k).isNone)

/-- Whether an embedded call returned normally (true) or raised
(false). -/
def exceptIsOk {α : Type} : Except PyErr α → Bool
  | Except.ok _ => true
  | Except.error _ => false

/-- The program counter of top-level execution never exceeds 2: the
while True loop keeps it at 2 forever. -/
theorem execTopLevel_pc_le (n : Nat) : (execTopLevel n).pc ≤ 2 := by
  induction n with
  | zero => decide
  | succ n ih =>
    show (topLevelStep (execTopLevel n)).pc ≤ 2
    rw [topLevelStep]
    by_cases h : (execTopLevel n).pc = 2
    · rw [if_pos h]
    · rw [if_neg h]
      simp only []
      omega

/-- From the second step on, top-level execution sits at the while True
loop (program counter 2). -/
theorem execTopLevel_pc_loop (n : Nat) : (execTopLevel (n + 2)).pc = 2 := by
  induction n with
  | zero => rfl
  | succ n ih =>
    show (topLevelStep (execTopLevel (n + 2))).pc = 2
    rw [topLevelStep, if_pos ih]

/-- C1: the claim says the three numeric outputs of process_weather_data
are the arithmetic means of the input fields. On the 3-sample
ForecastSet of the spec (temperatures 10, 12, 14; humidities 50, 60, 70;
wind speeds 1, 2, 3), the function instead raises TypeError at line 162,
because Counter there is the shadowed prometheus_client.Counter; the
variant with the intended collections.Counter returns exactly the means
12, 60, 2 and the mode "Rain". The claim states the evident intent, the
shadowing import at line 9 is the slip. -/
theorem c1_aggregator_raises_instead_of_means :
    process_weather_data
        ⟨[⟨10, 50, 1, "Rain"⟩, ⟨12, 60, 2, "Rain"⟩, ⟨14, 70, 3, "Clear"⟩]⟩ =
      Except.error (PyErr.typeError
        "Counter.__init__ missing 1 required positional argument: documentation") ∧
    process_weather_data_intended
        ⟨[⟨10, 50, 1, "Rain"⟩, ⟨12, 60, 2, "Rain"⟩, ⟨14, 70, 3, "Clear"⟩]⟩ =
      Except.ok (some 12, some 60, some 2, "Rain") := by
  constructor
  · rfl
  · norm_num [process_weather_data_intended, npMean, counterMostCommon1, firstSeen]
    decide

/-- C2: the claim says the fourth output is the most frequent condition
label with first-seen tie-breaking, so "Rain" for the conditions
["Rain", "Clear"]. On that input the function instead raises TypeError
at line 162 (Counter is the shadowed prometheus_client.Counter); the
variant with the intended collections.Counter does return "Rain",
breaking the tie in favour of the first-seen label. -/
theorem c2_mode_raises_instead_of_first_seen :
    process_weather_data ⟨[⟨20, 80, 4, "Rain"⟩, ⟨22, 82, 6, "Clear"⟩]⟩ =
      Except.error (PyErr.typeError
        "Counter.__init__ missing 1 required positional argument: documentation") ∧
    process_weather_data_intended ⟨[⟨20, 80, 4, "Rain"⟩, ⟨22, 82, 6, "Clear"⟩]⟩ =
      Except.ok (some 21, some 81, some 5, "Rain") := by
  constructor
  · rfl
  · norm_num [process_weather_data_intended, npMean, counterMostCommon1, firstSeen]
    decide

/-- C3 counterexample: on the empty ForecastSet, process_weather_data
does not fail with the dedicated empty-input error of the spec taxonomy
(no such class exists in the code at all). -/
theorem c3_counterexample_not_empty_input_error :
    process_weather_data (⟨[]⟩ : WeatherData) ≠ Except.error PyErr.emptyInput := by
  decide

/-- C3 as amended: on the empty ForecastSet, process_weather_data does
fail rather than return a value, but with a generic error: TypeError
from the shadowed Counter call of line 162 — and even the variant with
the intended collections.Counter fails with IndexError, from the [0]
subscript on the empty result of most_common(1) — not with a dedicated
EmptyInputError. Beforehand, numpy.mean on the empty lists yields nan
(modelled as none) without raising. -/
theorem c3_empty_set_fails_with_generic_error :
    process_weather_data (⟨[]⟩ : WeatherData) =
      Except.error (PyErr.typeError
        "Counter.__init__ missing 1 required positional argument: documentation") ∧
    process_weather_data_intended (⟨[]⟩ : WeatherData) =
      Except.error PyErr.indexError :=
  ⟨rfl, rfl⟩

/-- C4: the claim says no unconditional telemetry loop runs before or
instead of the UI flow and that top-level initialization terminates,
making single_page_app reachable. In the code, execution of the module
top level reaches the while True loop of lines 23-24 after two steps and
stays there forever: the program counter never reaches the function
definitions (pcFunctionDefs), so single_page_app is never even defined,
let alone reachable. -/
theorem c4_top_level_loops_before_app : ∀ n : Nat,
    (execTopLevel n).pc < pcFunctionDefs ∧ (execTopLevel (n + 2)).pc = 2 := by
  intro n
  refine ⟨?_, execTopLevel_pc_loop n⟩
  have h := execTopLevel_pc_le n
  unfold pcFunctionDefs
  omega

/-- C5: the claim says the failure branches for the weather fetch
(lines 366-368) and the recommendation fetch (lines 357-359) display a
message for every failing response, including when send_request returned
its failure indicator None. In the code both branches read
response.status_code, which on None raises AttributeError — caught
nowhere, since the try of line 324 catches only ValueError and the
weather branch sits outside it — so the cycle crashes instead of
surfacing a message; only a non-None failing response (such as a 304)
gets its messages displayed. -/
theorem c5_failure_branches_crash_on_none :
    weatherFailureBranch none =
      Except.error (PyErr.attributeError "NoneType object has no attribute status_code") ∧
    lambdaFailureBranch none =
      Except.error (PyErr.attributeError "NoneType object has no attribute status_code") ∧
    weatherFailureBranch (some ⟨304, "Not Modified"⟩) =
      Except.ok ["Failed to fetch weather data. Status code: 304",
                 "Response content: Not Modified"] ∧
    lambdaFailureBranch (some ⟨304, "Not Modified"⟩) =
      Except.ok ["Failed to send data. Status code: 304",
                 "Response content: Not Modified"] :=
  ⟨rfl, rfl, rfl, rfl⟩

/-- C6 counterexample: a 304 response is a non-2xx exchange, yet
send_request returns the response itself with no failure message and no
failure indicator, because raise_for_status only raises for status codes
400 to 599. This refutes the claim that every non-2xx status yields the
failure indicator None. -/
theorem c6_counterexample_status_304 :
    is2xx 304 = false ∧
    send_request "u" "GET" none (NetOutcome.response ⟨304, "Not Modified"⟩) =
      Except.ok ([], some ⟨304, "Not Modified"⟩) :=
  ⟨rfl, rfl⟩

/-- C6 as amended: for method "GET" or "POST", send_request returns the
failure indicator None after surfacing exactly one human-readable
message precisely for transport-level failures and for statuses in the
range 400 to 599 (what raise_for_status treats as errors); any other
delivered response — all of 1xx, 2xx and 3xx — is returned as the
structured response with no message. A single network exchange happens
per invocation, so no retry is possible. -/
theorem c6_failure_contract (url method : String) (jd : Option String) (o : NetOutcome)
    (h : method = "GET" ∨ method = "POST") :
    (∀ msg, o = NetOutcome.transportError msg →
      send_request url method jd o =
        Except.ok (["HTTP request failed: " ++ msg], none)) ∧
    (∀ r, o = NetOutcome.response r → 400 ≤ r.status_code → r.status_code < 600 →
      send_request url method jd o =
        Except.ok (["HTTP request failed: " ++ (toString r.status_code ++ " Error")], none)) ∧
    (∀ r, o = NetOutcome.response r → ¬(400 ≤ r.status_code ∧ r.status_code < 600) →
      send_request url method jd o = Except.ok ([], some r)) := by
  have hm : (method == "GET" || method == "POST") = true := by
    rcases h with h | h <;> simp [h]
  refine ⟨?_, ?_, ?_⟩
  · intro msg ho
    subst ho
    simp [send_request, hm, reqExceptionStr]
  · intro r ho h4 h6
    subst ho
    have hb : (400 ≤ r.status_code && r.status_code < 600) = true := by
      simp only [Bool.and_eq_true, decide_eq_true_eq]
      omega
    simp [send_request, hm, raise_for_status, hb, reqExceptionStr]
  · intro r ho hnot
    subst ho
    have hb : (400 ≤ r.status_code && r.status_code < 600) = false := by
      simp only [Bool.and_eq_false_iff, decide_eq_false_iff_not]
      omega
    simp [send_request, hm, raise_for_status, hb]

/-- C6 witness: the amended contract applied to a GET whose transport
times out: one message, failure indicator None. -/
theorem c6_failure_contract_witness :
    send_request "u" "GET" none (NetOutcome.transportError "timeout") =
      Except.ok (["HTTP request failed: timeout"], none) :=
  (c6_failure_contract "u" "GET" none (NetOutcome.transportError "timeout")
    (Or.inl rfl)).1 "timeout" rfl

/-- C7: format_outfit_suggestions succeeds exactly when all five
clothing-slot keys are present, and when one is absent it raises
KeyError for the first missing key (in f-string evaluation order),
producing no partial markup — an Except.error carries no output. -/
theorem c7_formatter_missing_field (s : List (String × String)) :
    (exceptIsOk (format_outfit_suggestions s) = hasAllKeys s) ∧
    (∀ k, firstMissingKey s = some k →
      format_outfit_suggestions s = Except.error (PyErr.keyError k)) := by
  rcases hT : s.lookup "Top" with _ | vT <;>
  rcases hB : s.lookup "Bottom" with _ | vB <;>
  rcases hF : s.lookup "Footwear" with _ | vF <;>
  rcases hO : s.lookup "Outerwear" with _ | vO <;>
  rcases hA : s.lookup "Accessories" with _ | vA <;>
  simp [format_outfit_suggestions, dictGet, hasAllKeys, firstMissingKey,
        requiredKeys, exceptIsOk, List.find?, hT, hB, hF, hO, hA]

/-- C7 witness: a dict missing exactly the "Outerwear" key fails with
KeyError "Outerwear" and is not ok, matching hasAllKeys = false. -/
theorem c7_formatter_missing_field_witness :
    (exceptIsOk (format_outfit_suggestions
        [("Top", "Tee"), ("Bottom", "Jeans"), ("Footwear", "Boots"), ("Accessories", "Scarf")]) =
      hasAllKeys
        [("Top", "Tee"), ("Bottom", "Jeans"), ("Footwear", "Boots"), ("Accessories", "Scarf")]) ∧
    format_outfit_suggestions
        [("Top", "Tee"), ("Bottom", "Jeans"), ("Footwear", "Boots"), ("Accessories", "Scarf")] =
      Except.error (PyErr.keyError "Outerwear") :=
  ⟨(c7_formatter_missing_field _).1,
   (c7_formatter_missing_field _).2 "Outerwear" (by decide)⟩

/-- C8: the claim says a single-sample ForecastSet yields that sample
as averages and mode. On the one-sample set (temperature 7, humidity
55, wind speed 4, condition "Snow") the function instead raises
TypeError at line 162 (shadowed Counter); the variant with the intended
collections.Counter returns exactly the sample values and its
condition. -/
theorem c8_single_sample_raises_instead_of_values :
    process_weather_data ⟨[⟨7, 55, 4, "Snow"⟩]⟩ =
      Except.error (PyErr.typeError
        "Counter.__init__ missing 1 required positional argument: documentation") ∧
    process_weather_data_intended ⟨[⟨7, 55, 4, "Snow"⟩]⟩ =
      Except.ok (some 7, some 55, some 4, "Snow") := by
  constructor
  · rfl
  · norm_num [process_weather_data_intended, npMean, counterMostCommon1, firstSeen]

/-- C9: for any method other than "GET" and "POST", neither branch of
the if/elif in send_request assigns the local variable response, so
line 77 raises UnboundLocalError, which the except clause (catching only
requests.RequestException) lets escape — the call neither returns None
nor a response; and for "GET" or "POST" the function always returns
normally, so the unbound-variable branch is unreachable. -/
theorem c9_unbound_local_outside_get_post (url method : String)
    (jd : Option String) (o : NetOutcome) :
    (method ≠ "GET" ∧ method ≠ "POST" →
      send_request url method jd o = Except.error (PyErr.unboundLocalError "response")) ∧
    ((method = "GET" ∨ method = "POST") →
      ∃ res, send_request url method jd o = Except.ok res) := by
  constructor
  · rintro ⟨h1, h2⟩
    have hm : (method == "GET" || method == "POST") = false := by simp [h1, h2]
    simp [send_request, hm]
  · intro h
    have hm : (method == "GET" || method == "POST") = true := by
      rcases h with h | h <;> simp [h]
    cases o with
    | transportError msg =>
        exact ⟨(["HTTP request failed: " ++ reqExceptionStr (ReqException.transport msg)], none),
               by simp [send_request, hm]⟩
    | response r =>
        rcases hr : raise_for_status r with e | u
        · exact ⟨(["HTTP request failed: " ++ reqExceptionStr e], none),
                 by simp [send_request, hm, hr]⟩
        · exact ⟨([], some r), by simp [send_request, hm, hr]⟩

/-- C9 witness: a PUT request raises UnboundLocalError for the local
variable response. -/
theorem c9_unbound_local_outside_get_post_witness :
    send_request "u" "PUT" none (NetOutcome.transportError "t") =
      Except.error (PyErr.unboundLocalError "response") :=
  (c9_unbound_local_outside_get_post "u" "PUT" none (NetOutcome.transportError "t")).1
    (by decide)

/-- C10: two suggestions dicts that both contain the five clothing-slot
keys and agree on the values at those keys format identically: the
f-string of format_outfit_suggestions reads nothing but those five
subscripts, so extra keys never influence the output. -/
theorem c10_output_depends_only_on_slots (s1 s2 : List (String × String))
    (h1 : hasAllKeys s1 = true) (h2 : hasAllKeys s2 = true)
    (hagree : requiredKeys.all (fun k => s1.lookup k == s2.lookup k) = true) :
    format_outfit_suggestions s1 = format_outfit_suggestions s2 := by
  simp only [requiredKeys, List.all_cons, List.all_nil, Bool.and_eq_true, beq_iff_eq,
             and_true] at hagree
  obtain ⟨eT, eB, eF, eO, eA⟩ := hagree
  simp only [format_outfit_suggestions, dictGet, eT, eB, eF, eO, eA]

/-- C10 witness: two complete dicts with different extra keys and the
same five slot values format to the same string. -/
theorem c10_output_depends_only_on_slots_witness :
    format_outfit_suggestions
        [("Top", "Tee"), ("Bottom", "Jeans"), ("Footwear", "Boots"),
         ("Outerwear", "Coat"), ("Accessories", "Scarf"), ("Mood", "Sunny")] =
      format_outfit_suggestions
        [("Theme", "Autumn"), ("Top", "Tee"), ("Bottom", "Jeans"),
         ("Footwear", "Boots"), ("Outerwear", "Coat"), ("Accessories", "Scarf")] :=
  c10_output_depends_only_on_slots _ _ (by decide) (by decide) (by decide)

end W2W
